import Mathlib

/-!
Verification of the food-swing backend (`src/server.js`).

The server is an Express application over MongoDB with JWT authentication.
We embed the request handlers as pure Lean functions over an explicit
database state.  External libraries are modelled deterministically:

* `jsonwebtoken` (`jwt.sign` / `jwt.verify`): tokens are strings carrying a
  length-prefixed payload `(exp, id, email, name)` followed by a MAC over the
  payload computed from the process-wide secret; verification re-parses the
  payload, recomputes the MAC and checks the expiry against the clock
  (`jsonwebtoken` rejects a token whose `exp` is not in the future).
* `bcryptjs` (`bcrypt.hash` / `bcrypt.compare`): a deterministic salted tag
  `$2a$<cost>$<salt>$<digest>`; `compare` recomputes and compares.
* Mongoose: collections are lists; `findOne` is `List.find?`;
  `.sort({f : -1}).limit(50)` is insertion sort by the key, descending,
  followed by `take`; a schema field `required: true` of type `String`
  rejects a missing field and the empty string (Mongoose treats `''` as
  absent for `required` checks).

JavaScript truthiness on request fields (`if (!name)`) is modelled by
`present : Option String → Bool`: a field is falsy when absent or `""`.
-/

namespace FoodSwing

/-! ### Digit-string encoding used by the token wire format -/

def digitChar (d : Nat) : Char := Char.ofNat (48 + d)

def charToDigit (c : Char) : Nat := c.toNat - 48

/-- Digit characters of `n`, little-endian; `fuel` bounds the recursion so
that the definition is structural (and hence reduces inside the kernel). -/
def encNatAux : Nat → Nat → List Char
  | _, 0 => []
  | 0, _ + 1 => []
  | fuel + 1, n + 1 => digitChar ((n + 1) % 10) :: encNatAux fuel ((n + 1) / 10)

/-- Little-endian decimal character encoding of a natural number. -/
def encNat (n : Nat) : List Char :=
  if n = 0 then ['0'] else encNatAux n n

def decodeDigits (cs : List Char) : Nat :=
  Nat.ofDigits 10 (cs.map charToDigit)

/-- Read a nonempty run of digit characters terminated by `':'`. -/
def readNat (cs : List Char) : Option (Nat × List Char) :=
  let ds := cs.takeWhile Char.isDigit
  match cs.dropWhile Char.isDigit with
  | ':' :: rest => if ds.isEmpty then none else some (decodeDigits ds, rest)
  | _ => none

/-- Length-prefixed encoding of a string. -/
def encStr (s : String) : List Char :=
  encNat s.length ++ ':' :: s.data

/-- Read a length-prefixed string. -/
def readStr (cs : List Char) : Option (String × List Char) :=
  match readNat cs with
  | some (len, rest) =>
      if len ≤ rest.length then some (String.mk (rest.take len), rest.drop len)
      else none
  | none => none

/-! ### JWT model (`jsonwebtoken`)

A signed token is the payload `(exp, id, email, name)` in the length-prefixed
wire encoding above, followed by a MAC computed from the signing secret and
the payload.  `jwt.verify` re-parses the payload, recomputes the MAC with its
own secret, and accepts only if the MAC matches and the expiry claim is still
in the future (`jsonwebtoken` raises `TokenExpiredError` once the clock
reaches `exp`). -/

/-- Decoded token payload: the claims the server signs. -/
structure Claims where
  id : Nat
  email : String
  name : String
deriving Repr, DecidableEq

def tokenPayload (exp i : Nat) (email name : String) : List Char :=
  encNat exp ++ ':' :: (encNat i ++ ':' :: (encStr email ++ encStr name))

/-- Model of HMAC-SHA256: a tag determined by the secret and the payload. -/
def macChars (secret : String) (payload : List Char) : List Char :=
  secret.data ++ '#' :: payload

/-- Model of `jwt.sign({id, email, name}, secret, {expiresIn: '7d'})` at time
`iat` (seconds): the expiry claim is `iat + 604800` (7 days). -/
def jwtSign (secret : String) (c : Claims) (iat : Nat) : String :=
  String.mk (tokenPayload (iat + 604800) c.id c.email c.name
    ++ macChars secret (tokenPayload (iat + 604800) c.id c.email c.name))

/-- Model of `jwt.verify(token, secret)` at clock time `now`: `none` models
the callback receiving an error (malformed token, bad signature, or expiry). -/
def jwtVerify (secret tok : String) (now : Nat) : Option Claims := do
  let (exp, r1) ← readNat tok.data
  let (i, r2) ← readNat r1
  let (email, r3) ← readStr r2
  let (name, sig) ← readStr r3
  if sig = macChars secret (tokenPayload exp i email name) ∧ now < exp
  then some ⟨i, email, name⟩ else none

/-! ### bcrypt model (`bcryptjs`)

`bcrypt.hash(pw, cost)` produces a tag `$2a$<cost>$<salt>$<digest>`; we model
the salt as a fixed string (determinism) and the digest as the reversed
password characters.  `bcrypt.compare(pw, h)` recomputes the hash from the
salt and cost found in `h`; every hash this server stores uses cost 10 and
the model salt, so `compare` recomputes with those. -/

def bcryptSalt : String := "N9qo8uLOickgx2ZMRZoMye"

def bcryptHash (pw : String) (cost : Nat) : String :=
  "$2a$" ++ toString cost ++ "$" ++ bcryptSalt ++ "$" ++ String.mk pw.data.reverse

def bcryptCompare (pw hash : String) : Bool :=
  hash == bcryptHash pw 10

/-! ### Data model (Mongoose collections as lists) -/

/-- A persisted `User` document (`userSchema`). -/
structure StoredUser where
  id : Nat
  name : String
  email : String
  password : String
  createdAt : Nat
deriving Repr, DecidableEq

/-- A persisted `MoodSelection` document (`moodSelectionSchema`). -/
structure MoodSel where
  userId : Nat
  mood : String
  timestamp : Nat
deriving Repr, DecidableEq

/-- A persisted `Contact` document (`contactSchema`). -/
structure ContactMsg where
  name : String
  email : String
  message : String
  createdAt : Nat
deriving Repr, DecidableEq

/-- The document store: one list per collection, plus the id counter that
models MongoDB assigning fresh `_id`s. -/
structure DB where
  users : List StoredUser
  moods : List MoodSel
  contacts : List ContactMsg
  nextId : Nat
deriving Repr, DecidableEq

/-- The user object embedded in auth response bodies:
`{ id: user._id, name: user.name, email: user.email }` — no password field. -/
structure PublicUser where
  id : Nat
  name : String
  email : String
deriving Repr, DecidableEq

/-- JSON body of the signup/login responses. -/
structure AuthResponse where
  status : Nat
  success : Bool
  message : String
  token : Option String
  user : Option PublicUser
deriving Repr, DecidableEq

/-- JavaScript truthiness of a request body field: `!x` holds for an absent
field and for the empty string. -/
def present (o : Option String) : Bool :=
  match o with
  | none => false
  | some s => s != ""

/-- The process-wide signing secret
(`process.env.JWT_SECRET || 'your-secret-key-change-in-production'`),
modelled by its development default. -/
def JWT_SECRET : String := "your-secret-key-change-in-production"

/-- The Auth Service operation `issueToken(user)` of the spec: both handlers
sign `{id: user._id, email: user.email, name: user.name}` with `JWT_SECRET`
and a 7-day expiry. -/
def issueToken (user : StoredUser) (now : Nat) : String :=
  jwtSign JWT_SECRET ⟨user.id, user.email, user.name⟩ now

/-- The Auth Service operation `verifyToken(token)` of the spec:
`jwt.verify(token, JWT_SECRET)` as called by the middleware. -/
def verifyToken (tok : String) (now : Nat) : Option Claims :=
  jwtVerify JWT_SECRET tok now

/-! ### Session middleware (`authenticateToken`) -/

/-- JavaScript `String.prototype.split` with a single-character separator:
splits at every occurrence, keeping empty fragments. -/
def splitCh (sep : Char) : List Char → List (List Char)
  | [] => [[]]
  | c :: cs =>
      if c = sep then [] :: splitCh sep cs
      else
        match splitCh sep cs with
        | [] => [[c]]
        | g :: gs => (c :: g) :: gs

/-- Token extraction, `const token = authHeader && authHeader.split(' ')[1]`,
followed by the `if (!token)` truthiness test: `none` exactly when the code
takes the 401 branch.  An absent header, an empty header, a header without a
second space-separated field, and an empty second field are all falsy. -/
def extractToken (authHeader : Option String) : Option String :=
  match authHeader with
  | none => none
  | some s =>
      match (splitCh ' ' s.data).get? 1 with
      | none => none
      | some t => if t.isEmpty then none else some (String.mk t)

/-- Result of the middleware: either an early JSON error response, or the
request proceeds with `req.user` set to the decoded claims. -/
inductive AuthOutcome where
  | reject (status : Nat) (message : String)
  | proceed (user : Claims)
deriving Repr, DecidableEq

/-- The `authenticateToken` middleware. -/
def authenticateToken (authHeader : Option String) (now : Nat) : AuthOutcome :=
  match extractToken authHeader with
  | none => .reject 401 "Access token required"
  | some token =>
      match verifyToken token now with
      | none => .reject 403 "Invalid or expired token"
      | some user => .proceed user

/-! ### Auth routes -/

structure SignupReq where
  name : Option String
  email : Option String
  password : Option String

structure LoginReq where
  email : Option String
  password : Option String

/-- Handler for `POST /api/auth/signup`. -/
def signup (db : DB) (r : SignupReq) (now : Nat) : AuthResponse × DB :=
  if !present r.name || !present r.email || !present r.password then
    (⟨400, false, "Please provide all required fields", none, none⟩, db)
  else
    match db.users.find? (fun u => u.email == r.email.getD "") with
    | some _ => (⟨400, false, "Email already registered", none, none⟩, db)
    | none =>
        let hashedPassword := bcryptHash (r.password.getD "") 10
        let user : StoredUser :=
          ⟨db.nextId, r.name.getD "", r.email.getD "", hashedPassword, now⟩
        let token := jwtSign JWT_SECRET ⟨user.id, user.email, user.name⟩ now
        (⟨201, true, "Account created successfully! 🎉", some token,
            some ⟨user.id, user.name, user.email⟩⟩,
          { db with users := db.users ++ [user], nextId := db.nextId + 1 })

/-- Handler for `POST /api/auth/login`. -/
def login (db : DB) (r : LoginReq) (now : Nat) : AuthResponse :=
  if !present r.email || !present r.password then
    ⟨400, false, "Please provide email and password", none, none⟩
  else
    match db.users.find? (fun u => u.email == r.email.getD "") with
    | none => ⟨400, false, "Invalid email or password", none, none⟩
    | some user =>
        if !bcryptCompare (r.password.getD "") user.password then
          ⟨400, false, "Invalid email or password", none, none⟩
        else
          ⟨200, true, "Welcome back! 🎉",
            some (jwtSign JWT_SECRET ⟨user.id, user.email, user.name⟩ now),
            some ⟨user.id, user.name, user.email⟩⟩

/-! ### Mood routes -/

structure SimpleResponse where
  status : Nat
  success : Bool
  message : String
deriving Repr, DecidableEq

/-- Handler body of `POST /api/mood/select` (after the middleware): the
handler performs no validation; `new MoodSelection({userId, mood}).save()`
enforces the schema, whose `mood` field is `required: true`, so Mongoose
rejects an absent `mood` and the empty string; the `catch` turns that into
a 500. -/
def moodSelect (db : DB) (user : Claims) (mood : Option String) (now : Nat) :
    SimpleResponse × DB :=
  match mood with
  | some m =>
      if m = "" then (⟨500, false, "Failed to track mood"⟩, db)
      else
        (⟨200, true, "Mood tracked successfully"⟩,
          { db with moods := db.moods ++ [⟨user.id, m, now⟩] })
  | none => (⟨500, false, "Failed to track mood"⟩, db)

def moodByRecency (a b : MoodSel) : Prop := b.timestamp ≤ a.timestamp

instance : DecidableRel moodByRecency := fun a b =>
  Nat.decLe b.timestamp a.timestamp

instance : IsTotal MoodSel moodByRecency :=
  ⟨fun a b => (Nat.le_total a.timestamp b.timestamp).symm⟩

instance : IsTrans MoodSel moodByRecency :=
  ⟨fun _ _ _ hab hbc => Nat.le_trans hbc hab⟩

/-- Query of the history handler:
`MoodSelection.find({userId}).sort({timestamp: -1}).limit(50)`. -/
def moodHistory (db : DB) (user : Claims) : List MoodSel :=
  (List.insertionSort moodByRecency
    (db.moods.filter (fun m => m.userId == user.id))).take 50

inductive HistoryResult where
  | reject (status : Nat) (message : String)
  | ok (status : Nat) (history : List MoodSel)
deriving Repr, DecidableEq

/-- Route `GET /api/mood/history` (middleware plus handler). -/
def moodHistoryRoute (db : DB) (authHeader : Option String) (now : Nat) :
    HistoryResult :=
  match authenticateToken authHeader now with
  | .reject s m => .reject s m
  | .proceed user => .ok 200 (moodHistory db user)

/-! ### Contact routes -/

structure ContactReq where
  name : Option String
  email : Option String
  message : Option String

/-- Handler for `POST /api/contact`: it checks only that the three fields are
truthy before saving (all three schema fields are `required: true`, which the
present, nonempty fields satisfy). -/
def contactSubmit (db : DB) (r : ContactReq) (now : Nat) :
    SimpleResponse × DB :=
  if !present r.name || !present r.email || !present r.message then
    (⟨400, false, "Please provide all fields"⟩, db)
  else
    (⟨200, true, "Thank you for your message! We\x27ll get back to you soon. 📧"⟩,
      { db with contacts :=
          db.contacts ++ [⟨r.name.getD "", r.email.getD "", r.message.getD "", now⟩] })

/-- Modelled from the spec and the client (`script.js`): the "basic pattern"
for emails is the regex `/^[^\s@]+@[^\s@]+\.[^\s@]+$/`.  The server handler
never applies it; it exists here only to state the claim about pattern
validation. -/
def emailRegexOk (s : String) : Bool :=
  match splitCh '@' s.data with
  | [localPart, domain] =>
      !localPart.isEmpty && localPart.all (fun c => !c.isWhitespace)
        && !domain.isEmpty && domain.all (fun c => !c.isWhitespace)
        && ((domain.drop 1).dropLast.contains '.')
  | _ => false

def contactByRecency (a b : ContactMsg) : Prop := b.createdAt ≤ a.createdAt

instance : DecidableRel contactByRecency := fun a b =>
  Nat.decLe b.createdAt a.createdAt

instance : IsTotal ContactMsg contactByRecency :=
  ⟨fun a b => (Nat.le_total a.createdAt b.createdAt).symm⟩

instance : IsTrans ContactMsg contactByRecency :=
  ⟨fun _ _ _ hab hbc => Nat.le_trans hbc hab⟩

inductive ContactsResult where
  | reject (status : Nat) (message : String)
  | ok (status : Nat) (contacts : List ContactMsg)
deriving Repr, DecidableEq

/-- Route `GET /api/admin/contacts`: middleware, then
`Contact.find().sort({createdAt: -1})` with no role check. -/
def adminContactsRoute (db : DB) (authHeader : Option String) (now : Nat) :
    ContactsResult :=
  match authenticateToken authHeader now with
  | .reject s m => .reject s m
  | .proceed _user =>
      .ok 200 (List.insertionSort contactByRecency db.contacts)

/-! ### Lemmas about the wire encoding -/

theorem charToDigit_digitChar {d : Nat} (h : d < 10) :
    charToDigit (digitChar d) = d := by
  interval_cases d <;> decide

theorem isDigit_digitChar {d : Nat} (h : d < 10) :
    (digitChar d).isDigit = true := by
  interval_cases d <;> decide

theorem encNatAux_eq_digits :
    ∀ fuel n : Nat, n ≤ fuel → encNatAux fuel n = (Nat.digits 10 n).map digitChar := by
  intro fuel
  induction fuel with
  | zero =>
      intro n hn
      interval_cases n
      simp [encNatAux]
  | succ f ih =>
      intro n hn
      cases n with
      | zero => simp [encNatAux]
      | succ m =>
          rw [show encNatAux (f + 1) (m + 1)
              = digitChar ((m + 1) % 10) :: encNatAux f ((m + 1) / 10) from rfl]
          have hd : Nat.digits 10 (m + 1)
              = (m + 1) % 10 :: Nat.digits 10 ((m + 1) / 10) :=
            Nat.digits_def' (by norm_num) (Nat.succ_pos m)
          have hlt : (m + 1) / 10 < m + 1 := Nat.div_lt_self (Nat.succ_pos m) (by norm_num)
          rw [hd, List.map_cons, ih _ (by omega)]

theorem encNat_eq (n : Nat) :
    encNat n = match Nat.digits 10 n with
      | [] => ['0']
      | ds => ds.map digitChar := by
  unfold encNat
  by_cases h : n = 0
  · subst h
    simp
  · rw [if_neg h, encNatAux_eq_digits n n le_rfl]
    rcases hd : Nat.digits 10 n with _ | ⟨d, ds⟩
    · exact absurd (Nat.digits_eq_nil_iff_eq_zero.1 hd) h
    · rfl

theorem decodeDigits_encNat (n : Nat) : decodeDigits (encNat n) = n := by
  rw [encNat_eq]
  rcases h : Nat.digits 10 n with _ | ⟨d, ds⟩
  · have : n = 0 := (Nat.digits_eq_nil_iff_eq_zero).1 h
    subst this
    decide
  · show decodeDigits ((d :: ds).map digitChar) = n
    unfold decodeDigits
    rw [List.map_map]
    have hmap : (d :: ds).map (charToDigit ∘ digitChar) = (d :: ds).map id := by
      apply List.map_congr_left
      intro x hx
      have hx' : x ∈ Nat.digits 10 n := by rw [h]; exact hx
      simpa using charToDigit_digitChar (Nat.digits_lt_base (by norm_num) hx')
    rw [hmap, List.map_id, ← h, Nat.ofDigits_digits]

theorem encNat_ne_nil (n : Nat) : encNat n ≠ [] := by
  rw [encNat_eq]
  rcases h : Nat.digits 10 n with _ | ⟨d, ds⟩ <;> simp

theorem encNat_all_digits (n : Nat) : ∀ c ∈ encNat n, c.isDigit = true := by
  intro c hc
  rw [encNat_eq] at hc
  rcases h : Nat.digits 10 n with _ | ⟨d, ds⟩
  · rw [h] at hc; simp at hc; subst hc; decide
  · rw [h] at hc
    rcases List.mem_map.1 hc with ⟨x, hx, rfl⟩
    exact isDigit_digitChar (Nat.digits_lt_base (by norm_num) (h ▸ hx))

theorem takeWhile_append_of_all {p : Char → Bool} {l r : List Char}
    (h : ∀ c ∈ l, p c = true) :
    (l ++ r).takeWhile p = l ++ r.takeWhile p := by
  induction l with
  | nil => simp
  | cons a l ih =>
      have ha : p a = true := h a (List.mem_cons_self a l)
      have ih' := ih fun c hc => h c (List.mem_cons_of_mem a hc)
      simp [List.takeWhile_cons, ha, ih']

theorem dropWhile_append_of_all {p : Char → Bool} {l r : List Char}
    (h : ∀ c ∈ l, p c = true) :
    (l ++ r).dropWhile p = r.dropWhile p := by
  induction l with
  | nil => simp
  | cons a l ih =>
      have ha : p a = true := h a (List.mem_cons_self a l)
      have ih' := ih fun c hc => h c (List.mem_cons_of_mem a hc)
      simp [List.dropWhile_cons, ha, ih']

theorem readNat_enc (n : Nat) (rest : List Char) :
    readNat (encNat n ++ ':' :: rest) = some (n, rest) := by
  have hcolon : ':'.isDigit = false := by decide
  unfold readNat
  rw [takeWhile_append_of_all (encNat_all_digits n),
      dropWhile_append_of_all (encNat_all_digits n)]
  simp [List.takeWhile_cons, List.dropWhile_cons, hcolon, decodeDigits_encNat,
    List.isEmpty_iff, encNat_ne_nil n]

theorem readStr_enc (s : String) (rest : List Char) :
    readStr (encStr s ++ rest) = some (s, rest) := by
  unfold readStr encStr
  rw [List.append_assoc, List.cons_append, readNat_enc]
  have hlen : s.length = s.data.length := rfl
  simp only [hlen]
  rw [if_pos (by simp)]
  congr 1
  rw [List.take_left, List.drop_left]

theorem data_mk (l : List Char) : (String.mk l).data = l := rfl

theorem length_mk (l : List Char) : (String.mk l).length = l.length := rfl

/-! ### Lemmas about the JWT and bcrypt models -/

theorem jwtVerify_jwtSign (secret : String) (c : Claims) (iat now : Nat) :
    jwtVerify secret (jwtSign secret c iat) now
      = if now < iat + 604800 then some c else none := by
  have hdata : (jwtSign secret c iat).data
      = encNat (iat + 604800) ++ ':' :: (encNat c.id ++ ':' :: (encStr c.email
          ++ (encStr c.name
              ++ macChars secret (tokenPayload (iat + 604800) c.id c.email c.name)))) := by
    show tokenPayload (iat + 604800) c.id c.email c.name
        ++ macChars secret (tokenPayload (iat + 604800) c.id c.email c.name) = _
    simp only [tokenPayload, List.append_assoc, List.cons_append]
  unfold jwtVerify
  rw [hdata]
  rw [readNat_enc]
  simp only [Option.bind_eq_bind', Option.some_bind', readNat_enc, readStr_enc]
  by_cases h : now < iat + 604800
  · rw [if_pos ⟨trivial, h⟩, if_pos h]
  · rw [if_neg (fun hc => h hc.2), if_neg h]

theorem bcryptHash_ne_plaintext (pw : String) (cost : Nat) :
    bcryptHash pw cost ≠ pw := by
  intro h
  have hlen := congrArg String.length h
  simp only [bcryptHash, String.length_append, length_mk,
    List.length_reverse] at hlen
  have h1 : "$2a$".length = 4 := rfl
  have h2 : "$".length = 1 := rfl
  have h3 : pw.data.length = pw.length := rfl
  omega

/-! ### Lemmas about the handlers -/

theorem signup_missing (db : DB) (r : SignupReq) (now : Nat)
    (h : ¬(present r.name ∧ present r.email ∧ present r.password)) :
    signup db r now
      = (⟨400, false, "Please provide all required fields", none, none⟩, db) := by
  unfold signup
  cases hn : present r.name <;> cases he : present r.email <;>
    cases hp : present r.password <;> simp_all

theorem signup_dup (db : DB) (r : SignupReq) (now : Nat)
    (hn : present r.name) (he : present r.email) (hp : present r.password)
    {u : StoredUser}
    (hfind : db.users.find? (fun u => u.email == r.email.getD "") = some u) :
    signup db r now
      = (⟨400, false, "Email already registered", none, none⟩, db) := by
  unfold signup
  simp [hn, he, hp, hfind]

theorem signup_fresh (db : DB) (r : SignupReq) (now : Nat)
    (hn : present r.name) (he : present r.email) (hp : present r.password)
    (hfind : db.users.find? (fun u => u.email == r.email.getD "") = none) :
    signup db r now
      = (⟨201, true, "Account created successfully! 🎉",
            some (jwtSign JWT_SECRET ⟨db.nextId, r.email.getD "", r.name.getD ""⟩ now),
            some ⟨db.nextId, r.name.getD "", r.email.getD ""⟩⟩,
          { db with
              users := db.users
                ++ [⟨db.nextId, r.name.getD "", r.email.getD "",
                      bcryptHash (r.password.getD "") 10, now⟩],
              nextId := db.nextId + 1 }) := by
  unfold signup
  simp [hn, he, hp, hfind]

theorem login_unknown (db : DB) (r : LoginReq) (now : Nat)
    (he : present r.email) (hp : present r.password)
    (hfind : db.users.find? (fun u => u.email == r.email.getD "") = none) :
    login db r now = ⟨400, false, "Invalid email or password", none, none⟩ := by
  unfold login
  simp [he, hp, hfind]

theorem login_wrong_password (db : DB) (r : LoginReq) (now : Nat)
    (he : present r.email) (hp : present r.password)
    {u : StoredUser}
    (hfind : db.users.find? (fun u => u.email == r.email.getD "") = some u)
    (hcmp : bcryptCompare (r.password.getD "") u.password = false) :
    login db r now = ⟨400, false, "Invalid email or password", none, none⟩ := by
  unfold login
  simp [he, hp, hfind, hcmp]

theorem login_ok (db : DB) (r : LoginReq) (now : Nat)
    (he : present r.email) (hp : present r.password)
    {u : StoredUser}
    (hfind : db.users.find? (fun u => u.email == r.email.getD "") = some u)
    (hcmp : bcryptCompare (r.password.getD "") u.password = true) :
    login db r now
      = ⟨200, true, "Welcome back! 🎉",
          some (jwtSign JWT_SECRET ⟨u.id, u.email, u.name⟩ now),
          some ⟨u.id, u.name, u.email⟩⟩ := by
  unfold login
  simp [he, hp, hfind, hcmp]

/-! ### Claim theorems -/

/-- C1: a signup request with a missing field fails with the ValidationError
response (HTTP 400); one with an already-registered email fails with the
DuplicateEmail response (HTTP 400); otherwise the password is hashed with
bcrypt at cost factor 10, the user is persisted, and the server returns
HTTP 201 with a session token and the user's id, name, and email. -/
theorem C1_signup_contract (db : DB) (r : SignupReq) (now : Nat) :
    (¬(present r.name ∧ present r.email ∧ present r.password) →
      signup db r now
        = (⟨400, false, "Please provide all required fields", none, none⟩, db))
    ∧ (∀ u : StoredUser, present r.name → present r.email → present r.password →
        db.users.find? (fun u => u.email == r.email.getD "") = some u →
        signup db r now
          = (⟨400, false, "Email already registered", none, none⟩, db))
    ∧ (present r.name → present r.email → present r.password →
        db.users.find? (fun u => u.email == r.email.getD "") = none →
        signup db r now
          = (⟨201, true, "Account created successfully! 🎉",
                some (jwtSign JWT_SECRET ⟨db.nextId, r.email.getD "", r.name.getD ""⟩ now),
                some ⟨db.nextId, r.name.getD "", r.email.getD ""⟩⟩,
              { db with
                  users := db.users
                    ++ [⟨db.nextId, r.name.getD "", r.email.getD "",
                          bcryptHash (r.password.getD "") 10, now⟩],
                  nextId := db.nextId + 1 })) :=
  ⟨fun h => signup_missing db r now h,
   fun _u hn he hp hf => signup_dup db r now hn he hp hf,
   fun hn he hp hf => signup_fresh db r now hn he hp hf⟩

/-- Witness for C1: all three branches at concrete inputs. -/
theorem C1_signup_contract_witness :
    (signup ⟨[], [], [], 0⟩ ⟨none, some "a@x.com", some "pw"⟩ 0
        = (⟨400, false, "Please provide all required fields", none, none⟩,
            ⟨[], [], [], 0⟩))
    ∧ (signup ⟨[⟨7, "Ann", "a@x.com", "h", 0⟩], [], [], 8⟩
          ⟨some "Bob", some "a@x.com", some "pw2"⟩ 1
        = (⟨400, false, "Email already registered", none, none⟩,
            ⟨[⟨7, "Ann", "a@x.com", "h", 0⟩], [], [], 8⟩))
    ∧ (signup ⟨[], [], [], 0⟩ ⟨some "Ann", some "a@x.com", some "pw"⟩ 0
        = (⟨201, true, "Account created successfully! 🎉",
              some (jwtSign JWT_SECRET ⟨0, "a@x.com", "Ann"⟩ 0),
              some ⟨0, "Ann", "a@x.com"⟩⟩,
            ⟨[⟨0, "Ann", "a@x.com", bcryptHash "pw" 10, 0⟩], [], [], 1⟩)) :=
  ⟨(C1_signup_contract _ _ _).1 (by decide),
   (C1_signup_contract _ _ _).2.1 ⟨7, "Ann", "a@x.com", "h", 0⟩
     (by decide) (by decide) (by decide) (by decide),
   (C1_signup_contract _ _ _).2.2 (by decide) (by decide) (by decide) (by decide)⟩

/-- C2: a token issued by `issueToken` embeds exactly the claims
`{id, email, name}` with expiry 7 days (604800 s) after issuance;
`verifyToken` returns those claims at any time strictly before the expiry
instant and fails at any time after it. -/
theorem C2_token_roundtrip (user : StoredUser) (iat t : Nat) :
    (t < iat + 604800 →
        verifyToken (issueToken user iat) t = some ⟨user.id, user.email, user.name⟩)
    ∧ (iat + 604800 < t → verifyToken (issueToken user iat) t = none) := by
  unfold verifyToken issueToken
  rw [jwtVerify_jwtSign]
  constructor
  · intro h
    rw [if_pos h]
  · intro h
    rw [if_neg (by omega)]

/-- Witness for C2: a concrete token verifies one second before expiry and
fails one second after it. -/
theorem C2_token_roundtrip_witness :
    verifyToken (issueToken ⟨1, "Ann", "ann@x.com", "pw", 0⟩ 0) 604799
        = some ⟨1, "ann@x.com", "Ann"⟩
    ∧ verifyToken (issueToken ⟨1, "Ann", "ann@x.com", "pw", 0⟩ 0) 604801 = none :=
  ⟨(C2_token_roundtrip _ 0 604799).1 (by decide),
   (C2_token_roundtrip _ 0 604801).2 (by decide)⟩

/-- C3: a login with an unknown email and a login with a registered email but
wrong password produce the identical 400 response, byte-identical message
included (user-enumeration resistance). -/
theorem C3_login_enumeration_resistance (db : DB) (r1 r2 : LoginReq) (n1 n2 : Nat)
    (h1e : present r1.email) (h1p : present r1.password)
    (h2e : present r2.email) (h2p : present r2.password)
    (hunknown : db.users.find? (fun u => u.email == r1.email.getD "") = none)
    {u : StoredUser}
    (hfound : db.users.find? (fun u => u.email == r2.email.getD "") = some u)
    (hwrong : bcryptCompare (r2.password.getD "") u.password = false) :
    login db r1 n1 = ⟨400, false, "Invalid email or password", none, none⟩
    ∧ login db r2 n2 = ⟨400, false, "Invalid email or password", none, none⟩
    ∧ login db r1 n1 = login db r2 n2 :=
  ⟨login_unknown db r1 n1 h1e h1p hunknown,
   login_wrong_password db r2 n2 h2e h2p hfound hwrong,
   (login_unknown db r1 n1 h1e h1p hunknown).trans
     (login_wrong_password db r2 n2 h2e h2p hfound hwrong).symm⟩

/-- Witness for C3 at a concrete store with one registered user. -/
theorem C3_login_enumeration_resistance_witness :
    login ⟨[⟨1, "Ann", "ann@x.com", bcryptHash "secret1" 10, 0⟩], [], [], 2⟩
        ⟨some "bob@x.com", some "whatever"⟩ 3
      = login ⟨[⟨1, "Ann", "ann@x.com", bcryptHash "secret1" 10, 0⟩], [], [], 2⟩
        ⟨some "ann@x.com", some "wrong"⟩ 4 :=
  (C3_login_enumeration_resistance _ _ _ 3 4 (by decide) (by decide) (by decide)
    (by decide) (by decide)
    (u := ⟨1, "Ann", "ann@x.com", bcryptHash "secret1" 10, 0⟩)
    (by decide) (by decide)).2.2

/-- C4 counterexample: a signup request whose email is already registered but
whose name is missing fails with the ValidationError message, not with
DuplicateEmail, so the claim as stated does not hold for every such request. -/
theorem C4_duplicate_email_counterexample :
    ((⟨1, "Ann", "ann@x.com", "h", 0⟩ : StoredUser)
        ∈ (⟨[⟨1, "Ann", "ann@x.com", "h", 0⟩], [], [], 2⟩ : DB).users
      ∧ (⟨1, "Ann", "ann@x.com", "h", 0⟩ : StoredUser).email = "ann@x.com")
    ∧ (signup ⟨[⟨1, "Ann", "ann@x.com", "h", 0⟩], [], [], 2⟩
          ⟨none, some "ann@x.com", some "pw"⟩ 5).1
        = ⟨400, false, "Please provide all required fields", none, none⟩
    ∧ (signup ⟨[⟨1, "Ann", "ann@x.com", "h", 0⟩], [], [], 2⟩
          ⟨none, some "ann@x.com", some "pw"⟩ 5).1.message
        ≠ "Email already registered" := by decide

/-- C4 (amended): a signup request whose email equals that of a user already
in the store never mutates the store, and when name, email, and password are
all present the failure is the DuplicateEmail response. -/
theorem C4_duplicate_email_noop (db : DB) (r : SignupReq) (now : Nat)
    {u : StoredUser} (hu : u ∈ db.users) (hue : u.email = r.email.getD "") :
    (signup db r now).2 = db
    ∧ (present r.name → present r.email → present r.password →
        (signup db r now).1 = ⟨400, false, "Email already registered", none, none⟩) := by
  have hmem : (db.users.find? (fun v => v.email == r.email.getD "")).isSome := by
    rw [List.find?_isSome]
    exact ⟨u, hu, by simp [hue]⟩
  obtain ⟨v, hv⟩ := Option.isSome_iff_exists.1 hmem
  constructor
  · by_cases hn : present r.name
    · by_cases he : present r.email
      · by_cases hp : present r.password
        · rw [signup_dup db r now hn he hp hv]
        · rw [signup_missing db r now (fun hcon => hp hcon.2.2)]
      · rw [signup_missing db r now (fun hcon => he hcon.2.1)]
    · rw [signup_missing db r now (fun hcon => hn hcon.1)]
  · intro hn he hp
    rw [signup_dup db r now hn he hp hv]

/-- Witness for C4 (amended) at a concrete store. -/
theorem C4_duplicate_email_noop_witness :
    (signup ⟨[⟨1, "Ann", "ann@x.com", "h", 0⟩], [], [], 2⟩
        ⟨some "Bob", some "ann@x.com", some "pw"⟩ 5).2
      = ⟨[⟨1, "Ann", "ann@x.com", "h", 0⟩], [], [], 2⟩
    ∧ (signup ⟨[⟨1, "Ann", "ann@x.com", "h", 0⟩], [], [], 2⟩
        ⟨some "Bob", some "ann@x.com", some "pw"⟩ 5).1
      = ⟨400, false, "Email already registered", none, none⟩ :=
  ⟨(C4_duplicate_email_noop _ _ 5 (u := ⟨1, "Ann", "ann@x.com", "h", 0⟩)
      (by decide) (by decide)).1,
   (C4_duplicate_email_noop _ _ 5 (u := ⟨1, "Ann", "ann@x.com", "h", 0⟩)
      (by decide) (by decide)).2
     (by decide) (by decide) (by decide)⟩

/-- C5 counterexample: an Authorization header that is not in
`Bearer <token>` format (scheme `Basic`) is not rejected with 401
MissingToken; the middleware still takes the second space-separated field,
verifies it, and proceeds when it is a valid token. -/
theorem C5_bearer_format_counterexample :
    authenticateToken
        (some ("Basic " ++ jwtSign JWT_SECRET ⟨1, "ann@x.com", "Ann"⟩ 0)) 5
      = AuthOutcome.proceed ⟨1, "ann@x.com", "Ann"⟩
    ∧ authenticateToken
        (some ("Basic " ++ jwtSign JWT_SECRET ⟨1, "ann@x.com", "Ann"⟩ 0)) 5
      ≠ AuthOutcome.reject 401 "Access token required" := by
  decide

/-- C5 (amended): the middleware never checks the `Bearer` scheme; it takes
the second space-separated field of the header.  A missing header or one
without a nonempty second field yields 401 MissingToken; otherwise the second
field is passed to `verifyToken` — failure yields 403 InvalidToken, success
attaches the decoded claims and proceeds. -/
theorem C5_middleware_spec (h : Option String) (now : Nat) :
    (extractToken h = none →
        authenticateToken h now = .reject 401 "Access token required")
    ∧ (∀ t, extractToken h = some t → verifyToken t now = none →
        authenticateToken h now = .reject 403 "Invalid or expired token")
    ∧ (∀ t c, extractToken h = some t → verifyToken t now = some c →
        authenticateToken h now = .proceed c) := by
  refine ⟨fun he => ?_, fun t he hv => ?_, fun t c he hv => ?_⟩
  · simp only [authenticateToken, he]
  · simp only [authenticateToken, he, hv]
  · simp only [authenticateToken, he, hv]

/-- Witness for C5 (amended): all three branches at concrete headers. -/
theorem C5_middleware_spec_witness :
    authenticateToken none 0 = .reject 401 "Access token required"
    ∧ authenticateToken (some "Bearer garbage") 0
        = .reject 403 "Invalid or expired token"
    ∧ authenticateToken
        (some ("Bearer " ++ jwtSign JWT_SECRET ⟨1, "ann@x.com", "Ann"⟩ 0)) 5
        = .proceed ⟨1, "ann@x.com", "Ann"⟩ :=
  ⟨(C5_middleware_spec none 0).1 (by decide),
   (C5_middleware_spec _ 0).2.1 "garbage" (by decide) (by decide),
   (C5_middleware_spec _ 5).2.2 (jwtSign JWT_SECRET ⟨1, "ann@x.com", "Ann"⟩ 0)
     ⟨1, "ann@x.com", "Ann"⟩ (by decide) (by decide)⟩

/-- C6: the mood history contains only selections owned by the requesting
user, has length at most 50, and is sorted by timestamp newest-first. -/
theorem C6_mood_history_spec (db : DB) (user : Claims) :
    (∀ m ∈ moodHistory db user, m.userId = user.id)
    ∧ (moodHistory db user).length ≤ 50
    ∧ List.Sorted moodByRecency (moodHistory db user) := by
  refine ⟨?_, ?_, ?_⟩
  · intro m hm
    have h1 : m ∈ List.insertionSort moodByRecency
        (db.moods.filter (fun x => x.userId == user.id)) :=
      List.take_subset _ _ hm
    have h2 : m ∈ db.moods.filter (fun x => x.userId == user.id) :=
      ((List.perm_insertionSort moodByRecency _).mem_iff).1 h1
    have h3 := (List.mem_filter.1 h2).2
    simpa using h3
  · exact List.length_take_le _ _
  · exact List.Pairwise.sublist (List.take_sublist _ _)
      (List.sorted_insertionSort moodByRecency _)

/-- Witness for C6: membership conjunct applied at a concrete store. -/
theorem C6_mood_history_spec_witness :
    (⟨1, "happy", 3⟩ : MoodSel).userId = (⟨1, "e", "n"⟩ : Claims).id :=
  (C6_mood_history_spec
      ⟨[], [⟨1, "happy", 3⟩, ⟨2, "sad", 4⟩, ⟨1, "calm", 1⟩], [], 3⟩
      ⟨1, "e", "n"⟩).1 ⟨1, "happy", 3⟩ (by decide)

/-- C7 counterexample: a contact submission whose email fails the basic
pattern (no `@` at all) is not rejected; the handler responds 200 and appends
the ContactMessage, because the server never applies the pattern check. -/
theorem C7_email_pattern_counterexample :
    emailRegexOk "notanemail" = false
    ∧ (contactSubmit ⟨[], [], [], 0⟩ ⟨some "A", some "notanemail", some "hi"⟩ 7).1.status
        = 200
    ∧ (contactSubmit ⟨[], [], [], 0⟩ ⟨some "A", some "notanemail", some "hi"⟩ 7).2.contacts
        = [⟨"A", "notanemail", "hi", 7⟩] := by
  decide

/-- C7 (amended): the contact handler validates only that the three fields
are present: a submission with a missing field is rejected with the 400
ValidationError and appends nothing; any submission with all three fields
present is appended regardless of the email's shape (the basic email pattern
is enforced client-side only). -/
theorem C7_contact_presence_only (db : DB) (r : ContactReq) (now : Nat) :
    (¬(present r.name ∧ present r.email ∧ present r.message) →
        contactSubmit db r now = (⟨400, false, "Please provide all fields"⟩, db))
    ∧ (present r.name → present r.email → present r.message →
        contactSubmit db r now
          = (⟨200, true, "Thank you for your message! We\x27ll get back to you soon. 📧"⟩,
              { db with contacts := db.contacts
                  ++ [⟨r.name.getD "", r.email.getD "", r.message.getD "", now⟩] })) := by
  constructor
  · intro h
    unfold contactSubmit
    cases hn : present r.name <;> cases he : present r.email <;>
      cases hm : present r.message <;> simp_all
  · intro hn he hm
    unfold contactSubmit
    simp [hn, he, hm]

/-- Witness for C7 (amended): both branches at concrete submissions. -/
theorem C7_contact_presence_only_witness :
    contactSubmit ⟨[], [], [], 0⟩ ⟨some "A", none, some "hi"⟩ 7
      = (⟨400, false, "Please provide all fields"⟩, ⟨[], [], [], 0⟩)
    ∧ contactSubmit ⟨[], [], [], 0⟩ ⟨some "A", some "a@x.com", some "hi"⟩ 7
      = (⟨200, true, "Thank you for your message! We\x27ll get back to you soon. 📧"⟩,
          ⟨[], [], [⟨"A", "a@x.com", "hi", 7⟩], 0⟩) :=
  ⟨(C7_contact_presence_only _ _ 7).1 (by decide),
   (C7_contact_presence_only _ _ 7).2 (by decide) (by decide) (by decide)⟩

/-- C8: the persisted user record stores the bcrypt hash at cost 10 — which
is never equal to the plaintext password — and the response bodies of both
signup and login carry a user object with exactly id, name, and email. -/
theorem C8_password_never_plaintext (db : DB) (r : SignupReq) (now : Nat) :
    (present r.name → present r.email → present r.password →
      db.users.find? (fun u => u.email == r.email.getD "") = none →
      (signup db r now).2.users
          = db.users ++ [⟨db.nextId, r.name.getD "", r.email.getD "",
              bcryptHash (r.password.getD "") 10, now⟩]
        ∧ bcryptHash (r.password.getD "") 10 ≠ r.password.getD ""
        ∧ (signup db r now).1.user
            = some ⟨db.nextId, r.name.getD "", r.email.getD ""⟩)
    ∧ (∀ (lr : LoginReq) (u : StoredUser),
        present lr.email → present lr.password →
        db.users.find? (fun v => v.email == lr.email.getD "") = some u →
        bcryptCompare (lr.password.getD "") u.password = true →
        (login db lr now).user = some ⟨u.id, u.name, u.email⟩) := by
  constructor
  · intro hn he hp hf
    have h := signup_fresh db r now hn he hp hf
    exact ⟨by rw [h], bcryptHash_ne_plaintext _ _, by rw [h]⟩
  · intro lr u he hp hf hc
    rw [login_ok db lr now he hp hf hc]

/-- Witness for C8: both halves at a concrete store. -/
theorem C8_password_never_plaintext_witness :
    ((signup ⟨[], [], [], 0⟩ ⟨some "Ann", some "a@x.com", some "pw"⟩ 0).2.users
        = [⟨0, "Ann", "a@x.com", bcryptHash "pw" 10, 0⟩]
      ∧ bcryptHash "pw" 10 ≠ "pw"
      ∧ (signup ⟨[], [], [], 0⟩ ⟨some "Ann", some "a@x.com", some "pw"⟩ 0).1.user
          = some ⟨0, "Ann", "a@x.com"⟩)
    ∧ (login ⟨[⟨1, "Ann", "ann@x.com", bcryptHash "secret1" 10, 0⟩], [], [], 2⟩
          ⟨some "ann@x.com", some "secret1"⟩ 3).user
        = some ⟨1, "Ann", "ann@x.com"⟩ :=
  ⟨(C8_password_never_plaintext ⟨[], [], [], 0⟩
      ⟨some "Ann", some "a@x.com", some "pw"⟩ 0).1
      (by decide) (by decide) (by decide) (by decide),
   (C8_password_never_plaintext
      ⟨[⟨1, "Ann", "ann@x.com", bcryptHash "secret1" 10, 0⟩], [], [], 2⟩
      ⟨none, none, none⟩ 3).2
     ⟨some "ann@x.com", some "secret1"⟩
     ⟨1, "Ann", "ann@x.com", bcryptHash "secret1" 10, 0⟩
     (by decide) (by decide) (by decide) (by decide)⟩

/-- C9: any caller whose token verifies — whatever the decoded claims —
receives the complete contact list sorted newest-first by creation time; no
restriction beyond token validity is applied. -/
theorem C9_admin_contacts_spec (db : DB) (h : Option String) (now : Nat)
    (c : Claims) (hauth : authenticateToken h now = .proceed c) :
    adminContactsRoute db h now
        = .ok 200 (List.insertionSort contactByRecency db.contacts)
    ∧ (List.insertionSort contactByRecency db.contacts).Perm db.contacts
    ∧ List.Sorted contactByRecency (List.insertionSort contactByRecency db.contacts) := by
  refine ⟨?_, List.perm_insertionSort _ _, List.sorted_insertionSort _ _⟩
  simp only [adminContactsRoute, hauth]

/-- Witness for C9: a concrete valid token (for a user id absent from the
store) still receives the full sorted contact list. -/
theorem C9_admin_contacts_spec_witness :
    adminContactsRoute ⟨[], [], [⟨"A", "a@x.com", "hi", 1⟩, ⟨"B", "b@x.com", "yo", 5⟩], 0⟩
        (some ("Bearer " ++ jwtSign JWT_SECRET ⟨9, "x@y.z", "X"⟩ 0)) 5
      = .ok 200 (List.insertionSort contactByRecency
          [⟨"A", "a@x.com", "hi", 1⟩, ⟨"B", "b@x.com", "yo", 5⟩]) :=
  (C9_admin_contacts_spec ⟨[], [], [⟨"A", "a@x.com", "hi", 1⟩, ⟨"B", "b@x.com", "yo", 5⟩], 0⟩
      (some ("Bearer " ++ jwtSign JWT_SECRET ⟨9, "x@y.z", "X"⟩ 0)) 5
      ⟨9, "x@y.z", "X"⟩ (by decide)).1

/-- C10: a mood-selection request whose body lacks the mood field (or carries
an empty mood) fails through the store schema with the 500 response, not a
400 ValidationError, and appends no MoodSelection. -/
theorem C10_mood_select_validation (db : DB) (user : Claims)
    (mood : Option String) (now : Nat) (h : mood = none ∨ mood = some "") :
    moodSelect db user mood now = (⟨500, false, "Failed to track mood"⟩, db)
    ∧ (moodSelect db user mood now).1.status ≠ 400 := by
  have he : moodSelect db user mood now = (⟨500, false, "Failed to track mood"⟩, db) := by
    rcases h with h | h <;> subst h <;> simp [moodSelect]
  refine ⟨he, ?_⟩
  rw [he]
  simp

/-- Witness for C10: both the absent-field and empty-string cases. -/
theorem C10_mood_select_validation_witness :
    moodSelect ⟨[], [], [], 0⟩ ⟨1, "e", "n"⟩ none 3
      = (⟨500, false, "Failed to track mood"⟩, ⟨[], [], [], 0⟩)
    ∧ (moodSelect ⟨[], [], [], 0⟩ ⟨1, "e", "n"⟩ (some "") 3).1.status ≠ 400 :=
  ⟨(C10_mood_select_validation _ ⟨1, "e", "n"⟩ none 3 (Or.inl rfl)).1,
   (C10_mood_select_validation _ ⟨1, "e", "n"⟩ (some "") 3 (Or.inr rfl)).2⟩
